import Mathlib

/-!
Shallow embedding of the Gmail OAuth credential-lifecycle service
(`server/app/main/services/email.py`, class `GmailService`) together with
the persistent document store it runs against.

The Firestore backend is modelled as a list of entries keyed by
`(owner, account)`; the order of the list is the scan order of
`collection_group("gmailAccounts").stream()` and of per-owner
`limit(1).stream()` queries.  The external OAuth provider (token exchange,
token refresh, profile endpoint) is a parameter of each operation.

Python-specific semantics that the embedding reproduces:
- `x or y` and `if not x` use truthiness: `None` and `""` are falsy.
- `state.split(":")` yields `count(":") + 1` parts; tuple unpacking into two
  variables raises `ValueError` unless there are exactly two parts.
- `state.split(":", 1)` splits at the first delimiter only.
- `datetime.isoformat()` separates date and time with `"T"`, while
  `str(datetime)` uses a space; `str(None) = "None"`.
- `google.oauth2.credentials.Credentials` built *without* an `expiry`
  argument has `expired == False` (google-auth treats a missing expiry as
  not expired) and `valid == (token is not None)`; hence
  `if not creds.valid or creds.expired` holds iff the token is `None`.
-/

/-- A Python `datetime` value, reduced to the parts relevant here: its date
and time rendering.  `isoformat` joins them with `"T"`, `str` with `" "`. -/
structure PyDatetime where
  date : String
  time : String
deriving DecidableEq, Repr

/-- Models `datetime.isoformat()`: date and time separated by `"T"`. -/
def PyDatetime.isoformat (d : PyDatetime) : String := d.date ++ "T" ++ d.time

/-- Models `str(datetime)`: date and time separated by a space. -/
def PyDatetime.toStr (d : PyDatetime) : String := d.date ++ " " ++ d.time

/-- Models `str(x)` for `x : Optional[datetime]`: `str(None)` is the string `"None"`. -/
def pyStrOptDatetime : Option PyDatetime → String
  | none => "None"
  | some d => d.toStr

/-- Python truthiness for `Optional[str]`: `None` and `""` are falsy. -/
def pyFalsy : Option String → Bool
  | none => true
  | some s => s == ""

/-- Python `a or b` on `Optional[str]` values. -/
def pyOr (a b : Option String) : Option String :=
  if pyFalsy a then b else a

/-- Python `str.split(delim)` on the character list of a string: splits at
every occurrence of the delimiter, so the result has one more part than
there are delimiters, and `"".split(d) == [""]`. -/
def pySplitChars (delim : Char) : List Char → List (List Char)
  | [] => [[]]
  | c :: cs =>
    match pySplitChars delim cs with
    | [] => [[c]]
    | r :: rs => if c = delim then [] :: r :: rs else (c :: r) :: rs

/-- Python `s.split(delim)` (no maxsplit). -/
def pySplit (delim : Char) (s : String) : List String :=
  (pySplitChars delim s.data).map String.mk

/-- Models `":".join(parts)`, used to reassemble the remainder of a
`split(":", 1)`. -/
def joinColon : List String → String
  | [] => ""
  | [s] => s
  | s :: rest => s ++ ":" ++ joinColon rest

/-- Models `email_address.split("@")[0] if email_address else ""`
(used for the `name` field). -/
def emailName : Option String → String
  | none => ""
  | some e => if e == "" then "" else ((pySplit '@' e).headD "")

/-- One Gmail-account document (`users/{owner}/gmailAccounts/{account}`).
Each field is `Option`al: `none` means the key is absent from the document
(`"refresh_token" not in data` etc.).  `createdAt` holds the server
timestamp as a number. -/
structure Record where
  createdAt : Option Nat
  refresh_token : Option String
  access_token : Option String
  expiry : Option String
  emailAddress : Option String
  name : Option String
deriving DecidableEq, Repr

/-- The document with no fields (`doc_ref.get().to_dict() or {}` on a
missing document). -/
def emptyRecord : Record :=
  { createdAt := none, refresh_token := none, access_token := none
    expiry := none, emailAddress := none, name := none }

/-- One entry of the store: the owning user's id, the account document id,
and the document contents. -/
structure Entry where
  owner : String
  account : String
  doc : Record
deriving DecidableEq, Repr

/-- The Firestore state restricted to `gmailAccounts` documents, in scan
order. -/
abbrev Store := List Entry

/-- Models `doc_ref.get()` for `users/{owner}/gmailAccounts/{account}`: `some`
iff the document exists. -/
def Store.get (st : Store) (owner account : String) : Option Record :=
  (st.find? (fun e => e.owner == owner && e.account == account)).map Entry.doc

/-- Models `doc_ref.set(fields, merge=True)`: apply the field writes `f` to the
existing document, or to the empty document when none exists (creating it). -/
def Store.setMerge (st : Store) (owner account : String) (f : Record → Record) : Store :=
  if (st.find? (fun e => e.owner == owner && e.account == account)).isSome then
    st.map (fun e =>
      if e.owner == owner && e.account == account then { e with doc := f e.doc } else e)
  else
    st ++ [⟨owner, account, f emptyRecord⟩]

/-- Models `doc_ref.update(fields)`: field writes on an existing document (every
call site has already observed the document to exist). -/
def Store.update (st : Store) (owner account : String) (f : Record → Record) : Store :=
  st.map (fun e =>
    if e.owner == owner && e.account == account then { e with doc := f e.doc } else e)

/-- Models `doc_ref.delete()`. -/
def Store.delete (st : Store) (owner account : String) : Store :=
  st.filter (fun e => !(e.owner == owner && e.account == account))

/-- The token set held by a `flow.credentials` object after
`flow.fetch_token`: `token`, `refresh_token` (the provider may omit it),
`expiry`. -/
structure Creds where
  token : Option String
  refresh_token : Option String
  expiry : Option PyDatetime
deriving DecidableEq, Repr

/-- The external OAuth provider and profile endpoint, as consulted by one
operation: the outcome of `flow.fetch_token` (an `Except.error` models a
raised exception), of `creds.refresh(Request())` (new access token and new
expiry), and of `service.users().getProfile(...)` (`emailAddress` may be
absent from the profile). -/
structure Provider where
  fetchToken : String → String → Except String Creds
  refreshOutcome : Except String (String × Option PyDatetime)
  profile : Except String (Option String)

/-- Models `GmailService._get_existing_account_id`: the id of the first document
of the caller's `gmailAccounts` subcollection, if any. -/
def getExistingAccountId (st : Store) (uid : String) : Option String :=
  (st.find? (fun e => e.owner == uid)).map Entry.account

/-- Models `GmailService._ensure_account_doc`: merge-write
`{"createdAt": SERVER_TIMESTAMP}` (`now` models the server timestamp). -/
def ensureAccountDoc (st : Store) (uid account : String) (now : Nat) : Store :=
  st.setMerge uid account (fun r => { r with createdAt := some now })

/-- Result of `GmailService.get_auth_url`: the returned `accountId`, the
`state` string embedded in the authorization URL (URL construction itself
is delegated to the external `google_auth_oauthlib` flow and carries the
state unmodified), and the store afterwards. -/
structure AuthUrlResult where
  accountId : String
  state : String
  store : Store
deriving DecidableEq, Repr

/-- Models `GmailService.get_auth_url` (beginConnection).  `freshId` models the
`uuid4()` draw, `now` the server timestamp. -/
def get_auth_url (st : Store) (uid : String) (accountId? : Option String)
    (freshId : String) (now : Nat) : AuthUrlResult :=
  match accountId? with
  | some a => ⟨a, uid ++ ":" ++ a, ensureAccountDoc st uid a now⟩
  | none =>
    match getExistingAccountId st uid with
    | some existing => ⟨existing, uid ++ ":" ++ existing, st⟩
    | none => ⟨freshId, uid ++ ":" ++ freshId, ensureAccountDoc st uid freshId now⟩

/-- Models `GmailService._doc_ref_for_account`: the caller-owned direct path
first (only when `self.uid` is truthy and the document exists), then the
`collection_group` scan, returning the first document whose id matches
together with its owner.  `none` models the `(None, None)` return. -/
def docRefForAccount (st : Store) (uid accountId : String) : Option (String × String) :=
  if uid != "" && (st.get uid accountId).isSome then
    some (uid, accountId)
  else
    (st.find? (fun e => e.account == accountId)).map (fun e => (e.owner, e.account))

/-- Classification of the failure exits of `get_credentials`/`get_service`
(spec §7): `notFound` is the `None` return / `ValueError` when no document
resolves, `notConnected` the `None` return / `ValueError` when the document
has no `refresh_token`, `refreshFailed` a `RefreshError` raised by
`creds.refresh` and propagated. -/
inductive CredErr where
  | notFound
  | notConnected
  | refreshFailed (msg : String)
deriving DecidableEq, Repr

/-- The live credential handed back: the access token the `Credentials`
object carries on return and its refresh token. -/
structure LiveCred where
  token : String
  refresh_token : String
deriving DecidableEq, Repr

deriving instance DecidableEq for Except

/-- Outcome of `get_credentials`/`get_service`: the result, the store
afterwards, and whether `creds.refresh(Request())` was invoked. -/
structure CredResult where
  result : Except CredErr LiveCred
  store : Store
  didRefresh : Bool
deriving DecidableEq, Repr

/-- The body shared by `get_credentials` and `get_service` once a document
reference is resolved: load the document, fail `notConnected` without a
`refresh_token`, build `Credentials(token=access_token, refresh_token=...)`
— note the stored `expiry` is NOT passed to the constructor, so google-auth
reports `expired == False` and `valid == (token is not None)`; the refresh
branch `if not creds.valid or creds.expired` therefore runs iff
`access_token` is absent — and on refresh persist the new `access_token`
and `expiry` via `doc_ref.update`. -/
def credentialFromDoc (st : Store) (owner account : String) (pv : Provider) : CredResult :=
  let data := (st.get owner account).getD emptyRecord
  match data.refresh_token with
  | none => ⟨.error .notConnected, st, false⟩
  | some rt =>
    match data.access_token with
    | some t => ⟨.ok ⟨t, rt⟩, st, false⟩
    | none =>
      match pv.refreshOutcome with
      | .error msg => ⟨.error (.refreshFailed msg), st, true⟩
      | .ok (t, exp) =>
        ⟨.ok ⟨t, rt⟩,
         st.update owner account (fun r =>
           { r with access_token := some t, expiry := exp.map PyDatetime.isoformat }),
         true⟩

/-- Models `GmailService.get_credentials`.  With an explicit `account_id` it
resolves through `_doc_ref_for_account`; without one it takes the first
document of the caller's own subcollection (returning `None` when
`self.uid` is falsy or the caller has no account). -/
def get_credentials (st : Store) (uid : String) (accountId? : Option String)
    (pv : Provider) : CredResult :=
  match accountId? with
  | some a =>
    match docRefForAccount st uid a with
    | none => ⟨.error .notFound, st, false⟩
    | some (owner, account) => credentialFromDoc st owner account pv
  | none =>
    if uid == "" then ⟨.error .notFound, st, false⟩
    else
      match st.find? (fun e => e.owner == uid) with
      | none => ⟨.error .notFound, st, false⟩
      | some e => credentialFromDoc st e.owner e.account pv

/-- Models `GmailService.get_service`: resolves through `_doc_ref_for_account`
and runs the same credential body (raising `ValueError("Gmail account not
connected")` on the two failure exits, modelled by the `CredErr` tags). -/
def get_service (st : Store) (uid accountId : String) (pv : Provider) : CredResult :=
  match docRefForAccount st uid accountId with
  | none => ⟨.error .notFound, st, false⟩
  | some (owner, account) => credentialFromDoc st owner account pv

/-- Models `state.split(":", 1)` when `":" in state`: the part before the first
colon and everything after it; `none` when the state has no colon
(`str.split` yields a single part exactly when the delimiter is absent). -/
def splitStateOnce (state : String) : Option (String × String) :=
  match pySplit ':' state with
  | [] => none
  | [_] => none
  | a :: rest => some (a, joinColon rest)

/-- The normal returns of `save_refresh_token`: `{"success": True}` or
`{"success": False, "error": "No refresh_token returned"}`. -/
inductive SaveOutcome where
  | success
  | noRefreshToken
deriving DecidableEq, Repr

/-- An exception propagating out of `save_refresh_token`.  The
constructors keep the distinct exception sources apart: the `ValueError`
raised by unpacking a state whose colon count is not exactly one, an error
raised by `flow.fetch_token`, and an error raised by the profile fetch. -/
inductive SaveExn where
  | stateUnpack
  | exchange (msg : String)
  | profileFetch (msg : String)
deriving DecidableEq, Repr

/-- Models `GmailService.save_refresh_token`.  `Except.error` models an exception
propagating out of the method; a normal return carries the outcome and the
store. -/
def save_refresh_token (st : Store) (code state : String) (pv : Provider) :
    Except SaveExn (SaveOutcome × Store) :=
  match pySplit ':' state with
  | [uid, account_id] =>
    match pv.fetchToken state code with
    | .error e => .error (.exchange e)
    | .ok creds =>
      let existing := (st.get uid account_id).getD emptyRecord
      let refresh_token := pyOr creds.refresh_token existing.refresh_token
      if pyFalsy refresh_token then
        .ok (.noRefreshToken, st)
      else
        match pv.profile with
        | .error e => .error (.profileFetch e)
        | .ok email_address =>
          let st' := st.setMerge uid account_id (fun r =>
            { r with
              refresh_token := refresh_token
              access_token := creds.token
              expiry := creds.expiry.map PyDatetime.isoformat
              emailAddress := email_address
              name := some (emailName email_address) })
          .ok (.success, st')
  | _ => .error .stateUnpack

/-- The error strings `handle_callback` returns, as distinct constructors:
`invalidStateFormat` is `"Invalid state format: expected 'uid:account_id'"`,
`noRefreshToken` is `"No refresh_token returned"`, and `wrapped msg` is
`f"Error in handle_callback: {msg}"` produced by the `except` clause (the
prefix keeps it distinct from the other two for every `msg`). -/
inductive CallbackError where
  | invalidStateFormat
  | noRefreshToken
  | wrapped (msg : String)
deriving DecidableEq, Repr

/-- Models `GmailService.handle_callback`.  Mirrors the `(account_id, error)` pair
the method returns — every exception is caught by the surrounding
`try`/`except` and turned into a `wrapped` error — together with the store
afterwards. -/
def handle_callback (st : Store) (state code : String) (pv : Provider) :
    (Option String × Option CallbackError) × Store :=
  match splitStateOnce state with
  | none => ((none, some .invalidStateFormat), st)
  | some (uid, account_id) =>
    match pv.fetchToken state code with
    | .error e => ((none, some (.wrapped e)), st)
    | .ok creds =>
      if pyFalsy creds.refresh_token then
        ((none, some .noRefreshToken), st)
      else
        let existing := (st.get uid account_id).getD emptyRecord
        let refresh_token := pyOr creds.refresh_token existing.refresh_token
        if pyFalsy refresh_token then
          ((none, some .noRefreshToken), st)
        else
          match pv.profile with
          | .error e => ((none, some (.wrapped e)), st)
          | .ok email_address =>
            let st' := st.setMerge uid account_id (fun r =>
              { r with
                refresh_token := refresh_token
                access_token := creds.token
                expiry := some (pyStrOptDatetime creds.expiry)
                emailAddress := email_address
                name := some (emailName email_address) })
            ((some account_id, none), st')

/-- Outcome of `GmailService.disconnect_account`: the returned
`{"success": ..., "error": ...}` dictionary and the store afterwards. -/
structure DisconnectResult where
  success : Bool
  error : Option String
  store : Store
deriving DecidableEq, Repr

/-- Models `GmailService.disconnect_account`. -/
def disconnect_account (st : Store) (uid accountId : String)
    (adminMode : Bool) : DisconnectResult :=
  match docRefForAccount st uid accountId with
  | none => ⟨false, some "Gmail account not found", st⟩
  | some (owner, account) =>
    if !adminMode && owner != uid then
      ⟨false, some "You do not have permission to disconnect this account", st⟩
    else
      ⟨true, none, st.delete owner account⟩

/-- A provider whose exchange succeeds with a full token set (access token
`"t1"`, refresh token `"r1"`, an expiry), whose refresh succeeds, and whose
profile fetch returns `"x@y.com"`.  Used to instantiate concrete runs. -/
def pvOk : Provider :=
  { fetchToken := fun _ _ => .ok ⟨some "t1", some "r1", some ⟨"2024-01-01", "00:00:00"⟩⟩
    refreshOutcome := .ok ("tNew", some ⟨"2025-01-01", "12:00:00"⟩)
    profile := .ok (some "x@y.com") }

/-- A provider whose code exchange succeeds but omits the refresh token
(as on re-consent). -/
def pvNoRefresh : Provider :=
  { fetchToken := fun _ _ => .ok ⟨some "t1", none, some ⟨"2024-01-02", "03:04:05"⟩⟩
    refreshOutcome := .ok ("tNew", none)
    profile := .ok (some "x@y.com") }

/-- Store with a connected record holding an access token but no stored expiry. -/
def c1store : Store :=
  [⟨"u1", "a1", { emptyRecord with refresh_token := some "r0", access_token := some "t0" }⟩]

/-- Store with a record holding a stored refresh token only. -/
def c2store : Store := [⟨"u1", "a1", { emptyRecord with refresh_token := some "r0" }⟩]

/-- Store with a record whose `createdAt` is already set (to 5). -/
def c6store : Store :=
  [⟨"u6", "a6", { emptyRecord with createdAt := some 5, refresh_token := some "r6" }⟩]

theorem store_get_cons (e : Entry) (st : Store) (o a : String) :
    Store.get (e :: st) o a =
      if e.owner == o && e.account == a then some e.doc else st.get o a := by
  cases hb : (e.owner == o && e.account == a) with
  | true => simp [Store.get, List.find?, hb]
  | false => simp [Store.get, List.find?, hb]

theorem store_get_update (st : Store) (o a o' a' : String) (f : Record → Record) :
    (st.update o a f).get o' a' =
      (st.get o' a').map (fun r => if o == o' && a == a' then f r else r) := by
  induction st with
  | nil => rfl
  | cons e st ih =>
    simp only [Store.update, List.map_cons] at *
    cases hk : (e.owner == o && e.account == a) with
    | true =>
      simp only [hk, if_true]
      rw [store_get_cons, store_get_cons]
      cases hk' : (e.owner == o' && e.account == a') with
      | true =>
        have h1 : e.owner = o ∧ e.account = a := by
          constructor <;> simp_all
        have h2 : e.owner = o' ∧ e.account = a' := by
          constructor <;> simp_all
        have ho : o = o' := h1.1 ▸ h2.1
        have ha : a = a' := h1.2 ▸ h2.2
        simp [hk, hk', ho, ha]
      | false =>
        have hk'2 : (({ e with doc := f e.doc } : Entry).owner == o' &&
            ({ e with doc := f e.doc } : Entry).account == a') = false := by
          simpa using hk'
        simp only [hk'2, Bool.false_eq_true, if_false]
        exact ih
    | false =>
      simp only [hk, Bool.false_eq_true, if_false]
      rw [store_get_cons, store_get_cons]
      cases hk' : (e.owner == o' && e.account == a') with
      | true =>
        have h2 : e.owner = o' ∧ e.account = a' := by
          constructor <;> simp_all
        have hne : (o == o' && a == a') = false := by
          by_contra hcontra
          simp only [Bool.not_eq_false, Bool.and_eq_true, beq_iff_eq] at hcontra
          apply absurd hk
          simp [h2.1, h2.2, hcontra.1, hcontra.2]
        simp [hne]
      | false =>
        simp only [Bool.false_eq_true, if_false]
        exact ih

theorem store_get_append (st st' : Store) (o a : String) :
    Store.get (st ++ st') o a =
      match st.get o a with
      | some r => some r
      | none => st'.get o a := by
  induction st with
  | nil => simp [Store.get]
  | cons e st ih =>
    rw [List.cons_append, store_get_cons, store_get_cons]
    cases hk : (e.owner == o && e.account == a) with
    | true => simp
    | false => simpa using ih

theorem store_get_delete_self (st : Store) (o a : String) :
    (st.delete o a).get o a = none := by
  induction st with
  | nil => rfl
  | cons e st ih =>
    simp only [Store.delete, List.filter_cons] at *
    cases hk : (e.owner == o && e.account == a) with
    | true => simpa [hk] using ih
    | false =>
      simp only [hk, Bool.not_false, if_true]
      rw [store_get_cons]
      simpa [hk] using ih

theorem store_get_setMerge (st : Store) (o a o' a' : String) (f : Record → Record) :
    (st.setMerge o a f).get o' a' =
      if o == o' && a == a' then some (f ((st.get o a).getD emptyRecord))
      else st.get o' a' := by
  unfold Store.setMerge
  cases hex : (st.find? fun e => e.owner == o && e.account == a).isSome with
  | true =>
    simp only [hex, if_true]
    have hupd : (Store.update st o a f).get o' a' =
        (st.get o' a').map (fun r => if o == o' && a == a' then f r else r) :=
      store_get_update st o a o' a' f
    rw [show (List.map (fun e => if e.owner == o && e.account == a
          then { e with doc := f e.doc } else e) st) = Store.update st o a f from rfl]
    rw [hupd]
    obtain ⟨r, hr⟩ : ∃ r, st.get o a = some r := by
      rcases Option.isSome_iff_exists.mp hex with ⟨e, he⟩
      exact ⟨e.doc, by simp [Store.get, he]⟩
    cases hc : (o == o' && a == a') with
    | true =>
      have ho : o = o' := by simp_all
      have ha : a = a' := by simp_all
      subst ho ha
      simp [hr]
    | false => simp
  | false =>
    simp only [hex, Bool.false_eq_true, if_false]
    rw [store_get_append]
    have hfind : st.find? (fun e => e.owner == o && e.account == a) = none := by
      cases hf : st.find? (fun e => e.owner == o && e.account == a) with
      | none => rfl
      | some e => rw [hf] at hex; simp at hex
    have hget : st.get o a = none := by simp [Store.get, hfind]
    have hsingle : Store.get [(⟨o, a, f emptyRecord⟩ : Entry)] o' a' =
        if o == o' && a == a' then some (f emptyRecord) else none := by
      rw [store_get_cons]; rfl
    cases hc : (o == o' && a == a') with
    | true =>
      have ho : o = o' := by simp_all
      have ha : a = a' := by simp_all
      subst ho ha
      rw [hget] at *
      simp [hsingle, hget, hc]
    | false =>
      cases hg : st.get o' a' with
      | some r => simp
      | none => rw [hsingle]; simp [hc]

theorem pySplitChars_ne_nil (d : Char) (l : List Char) : pySplitChars d l ≠ [] := by
  cases l with
  | nil => simp [pySplitChars]
  | cons c cs =>
    simp only [pySplitChars]
    cases pySplitChars d cs with
    | nil => simp
    | cons r rs =>
      cases hd : decide (c = d) <;> simp_all

theorem pySplit_ne_nil (d : Char) (s : String) : pySplit d s ≠ [] := by
  simp [pySplit, pySplitChars_ne_nil]

theorem splitStateOnce_eq_none_iff (state : String) :
    splitStateOnce state = none ↔ (pySplit ':' state).length = 1 := by
  unfold splitStateOnce
  cases h : pySplit ':' state with
  | nil => exact absurd h (pySplit_ne_nil ':' state)
  | cons a rest =>
    cases rest with
    | nil => simp
    | cons b r => simp

theorem splitStateOnce_pair (state u a : String) (h : pySplit ':' state = [u, a]) :
    splitStateOnce state = some (u, a) := by
  unfold splitStateOnce
  rw [h]
  rfl

/-- C4: resolution tries the caller-owned direct path first; on a miss it
falls back to the global scan, returning the first entry in scan order
whose document id matches, together with that entry's true owner
(first-seen wins, duplicates tolerated without error). -/
theorem c4_resolver_global_fallback (st : Store) (uid accountId : String) :
    (uid ≠ "" → (st.get uid accountId).isSome →
      docRefForAccount st uid accountId = some (uid, accountId))
    ∧ (st.get uid accountId = none →
      docRefForAccount st uid accountId =
        (st.find? (fun e => e.account == accountId)).map (fun e => (e.owner, e.account)))
    ∧ (∀ e, st.find? (fun e => e.account == accountId) = some e → e.account = accountId) := by
  refine ⟨?_, ?_, ?_⟩
  · intro h1 h2
    simp [docRefForAccount, h1, h2]
  · intro hmiss
    simp [docRefForAccount, hmiss]
  · intro e he
    have := List.find?_some he
    simpa using this

theorem c4_resolver_global_fallback_witness :
    docRefForAccount [⟨"u2", "a9", emptyRecord⟩] "u1" "a9" = some ("u2", "a9") := by
  have h := (c4_resolver_global_fallback [⟨"u2", "a9", emptyRecord⟩] "u1" "a9").2.1 (by decide)
  rw [h]
  decide

/-- C3: disconnect by a caller who is neither the resolved record's owner
nor an admin is denied and leaves the store unchanged; by the owner or an
admin it deletes the record, after which a direct lookup of the same
`(owner, account)` finds nothing. -/
theorem c3_disconnect_permissions (st : Store) (uid accountId owner account : String)
    (hres : docRefForAccount st uid accountId = some (owner, account)) :
    (owner ≠ uid → disconnect_account st uid accountId false =
      ⟨false, some "You do not have permission to disconnect this account", st⟩)
    ∧ (owner = uid → disconnect_account st uid accountId false =
      ⟨true, none, st.delete owner account⟩)
    ∧ disconnect_account st uid accountId true = ⟨true, none, st.delete owner account⟩
    ∧ (st.delete owner account).get owner account = none := by
  refine ⟨?_, ?_, ?_, store_get_delete_self st owner account⟩
  · intro hne
    simp [disconnect_account, hres, hne]
  · intro heq
    simp [disconnect_account, hres, heq]
  · simp [disconnect_account, hres]

theorem c3_disconnect_permissions_witness :
    disconnect_account [⟨"u2", "a3", emptyRecord⟩] "u1" "a3" false =
      ⟨false, some "You do not have permission to disconnect this account",
        [⟨"u2", "a3", emptyRecord⟩]⟩
    ∧ disconnect_account [⟨"u2", "a3", emptyRecord⟩] "u1" "a3" true = ⟨true, none, []⟩ := by
  have h := c3_disconnect_permissions [⟨"u2", "a3", emptyRecord⟩] "u1" "a3" "u2" "a3" (by decide)
  refine ⟨h.1 (by decide), ?_⟩
  rw [h.2.2.1]
  decide

/-- C5: a stored record without a `refresh_token` (pending placeholder) is
never usable: both `get_credentials` and `get_service` fail with
`notConnected`, perform no refresh, and leave the store unchanged. -/
theorem c5_pending_record_not_usable (st : Store) (uid accountId owner account : String)
    (pv : Provider) (r : Record)
    (hres : docRefForAccount st uid accountId = some (owner, account))
    (hget : st.get owner account = some r)
    (hnort : r.refresh_token = none) :
    get_credentials st uid (some accountId) pv = ⟨.error .notConnected, st, false⟩
    ∧ get_service st uid accountId pv = ⟨.error .notConnected, st, false⟩ := by
  have hcore : credentialFromDoc st owner account pv = ⟨.error .notConnected, st, false⟩ := by
    simp [credentialFromDoc, hget, hnort]
  constructor
  · simp [get_credentials, hres, hcore]
  · simp [get_service, hres, hcore]

theorem c5_pending_record_not_usable_witness :
    get_credentials [⟨"u1", "a5", { emptyRecord with createdAt := some 1 }⟩] "u1" (some "a5") pvOk
      = ⟨.error .notConnected, [⟨"u1", "a5", { emptyRecord with createdAt := some 1 }⟩], false⟩ := by
  exact (c5_pending_record_not_usable _ "u1" "a5" "u1" "a5" pvOk
    { emptyRecord with createdAt := some 1 } (by decide) (by decide) (by decide)).1

/-- C9: when the stored `access_token` is present (in particular whenever
it is present and unexpired — the code never reads the stored expiry), a
`get_credentials` call returns exactly the persisted tokens, performs no
provider refresh, and leaves the store unchanged; a second call behaves
identically. -/
theorem c9_valid_token_idempotent (st : Store) (uid accountId owner account : String)
    (pv : Provider) (r : Record) (rt t : String)
    (hres : docRefForAccount st uid accountId = some (owner, account))
    (hget : st.get owner account = some r)
    (hrt : r.refresh_token = some rt)
    (hat : r.access_token = some t) :
    get_credentials st uid (some accountId) pv = ⟨.ok ⟨t, rt⟩, st, false⟩
    ∧ get_credentials (get_credentials st uid (some accountId) pv).store uid (some accountId) pv
        = ⟨.ok ⟨t, rt⟩, st, false⟩ := by
  have h1 : get_credentials st uid (some accountId) pv = ⟨.ok ⟨t, rt⟩, st, false⟩ := by
    simp [get_credentials, hres, credentialFromDoc, hget, hrt, hat]
  exact ⟨h1, by rw [h1]; exact h1⟩

theorem c9_valid_token_idempotent_witness :
    get_credentials [⟨"u1", "a2", { emptyRecord with refresh_token := some "r2", access_token := some "t2" }⟩]
        "u1" (some "a2") pvOk
      = ⟨.ok ⟨"t2", "r2"⟩,
         [⟨"u1", "a2", { emptyRecord with refresh_token := some "r2", access_token := some "t2" }⟩],
         false⟩ := by
  exact (c9_valid_token_idempotent _ "u1" "a2" "u1" "a2" pvOk
    { emptyRecord with refresh_token := some "r2", access_token := some "t2" }
    "r2" "t2" (by decide) (by decide) (by decide) (by decide)).1

/-- C1 counterexample: the record at `("u1", "a1")` carries a
`refresh_token` and an `access_token` but NO stored `expiry`; the claim
treats a missing stored expiry as expired, so it requires a provider
refresh on this call, yet `get_credentials` performs none — the stored
expiry is never consulted because the `Credentials` object is built
without it. -/
theorem c1_counterexample :
    (c1store.get "u1" "a1").map Record.access_token = some (some "t0")
    ∧ (c1store.get "u1" "a1").map Record.expiry = some none
    ∧ (c1store.get "u1" "a1").map Record.refresh_token = some (some "r0")
    ∧ (get_credentials c1store "u1" (some "a1") pvOk).didRefresh = false := by
  decide

/-- C1 (amended): for a connected record, `get_credentials` refreshes iff
the stored `access_token` is absent — the stored `expiry` plays no role —
and on refresh it persists the new `access_token` and `expiry` through a
field update that leaves every other field of the record in place. -/
theorem c1_refresh_iff_access_token_absent (st : Store) (uid accountId owner account : String)
    (pv : Provider) (r : Record) (rt : String)
    (hres : docRefForAccount st uid accountId = some (owner, account))
    (hget : st.get owner account = some r)
    (hrt : r.refresh_token = some rt) :
    (get_credentials st uid (some accountId) pv).didRefresh = r.access_token.isNone
    ∧ (∀ t, r.access_token = some t →
        get_credentials st uid (some accountId) pv = ⟨.ok ⟨t, rt⟩, st, false⟩)
    ∧ (∀ t exp, r.access_token = none → pv.refreshOutcome = .ok (t, exp) →
        get_credentials st uid (some accountId) pv =
          ⟨.ok ⟨t, rt⟩,
            st.update owner account (fun q =>
              { q with access_token := some t, expiry := exp.map PyDatetime.isoformat }),
            true⟩
        ∧ (st.update owner account (fun q =>
              { q with access_token := some t, expiry := exp.map PyDatetime.isoformat })).get
              owner account =
            some { r with access_token := some t, expiry := exp.map PyDatetime.isoformat }) := by
  refine ⟨?_, ?_, ?_⟩
  · cases hat : r.access_token with
    | some t => simp [get_credentials, hres, credentialFromDoc, hget, hrt, hat]
    | none =>
      cases hro : pv.refreshOutcome with
      | error m => simp [get_credentials, hres, credentialFromDoc, hget, hrt, hat, hro]
      | ok p =>
        obtain ⟨t, exp⟩ := p
        simp [get_credentials, hres, credentialFromDoc, hget, hrt, hat, hro]
  · intro t hat
    simp [get_credentials, hres, credentialFromDoc, hget, hrt, hat]
  · intro t exp hat hro
    constructor
    · simp [get_credentials, hres, credentialFromDoc, hget, hrt, hat, hro]
    · rw [store_get_update]
      simp [hget]

theorem c1_refresh_iff_access_token_absent_witness :
    (get_credentials c1store "u1" (some "a1") pvOk).didRefresh =
      (({ emptyRecord with refresh_token := some "r0", access_token := some "t0" } : Record).access_token).isNone
    ∧ get_credentials c1store "u1" (some "a1") pvOk =
      ⟨.ok ⟨"t0", "r0"⟩, c1store, false⟩ := by
  have h := c1_refresh_iff_access_token_absent c1store "u1" "a1" "u1" "a1" pvOk
    { emptyRecord with refresh_token := some "r0", access_token := some "t0" } "r0"
    (by decide) (by decide) (by decide)
  exact ⟨h.1, h.2.1 "t0" (by decide)⟩

/-- C8: `get_auth_url` with no explicit account id creates a fresh
placeholder (only `createdAt` set, no `refresh_token`) when the owner has
no account, returning the fresh id and the state `"uid:accountId"`; when
the owner already has an account it reuses the first existing account id
and writes nothing. -/
theorem c8_begin_connection (st : Store) (uid freshId : String) (now : Nat) :
    (st.find? (fun e => e.owner == uid) = none →
      get_auth_url st uid none freshId now =
        ⟨freshId, uid ++ ":" ++ freshId,
         st ++ [⟨uid, freshId, { emptyRecord with createdAt := some now }⟩]⟩
      ∧ ({ emptyRecord with createdAt := some now } : Record).refresh_token = none)
    ∧ (∀ e, st.find? (fun e => e.owner == uid) = some e →
        get_auth_url st uid none freshId now = ⟨e.account, uid ++ ":" ++ e.account, st⟩) := by
  constructor
  · intro h
    refine ⟨?_, rfl⟩
    have hkey : st.find? (fun e => e.owner == uid && e.account == freshId) = none := by
      rw [List.find?_eq_none] at h ⊢
      intro e he
      have := h e he
      simp_all
    simp [get_auth_url, getExistingAccountId, h, ensureAccountDoc, Store.setMerge, hkey]
  · intro e he
    simp [get_auth_url, getExistingAccountId, he]

theorem c8_begin_connection_witness :
    get_auth_url [] "u1" none "f1" 7 =
      ⟨"f1", "u1:f1", [⟨"u1", "f1", { emptyRecord with createdAt := some 7 }⟩]⟩
    ∧ get_auth_url [⟨"u1", "f1", { emptyRecord with createdAt := some 7 }⟩] "u1" none "f2" 8 =
      ⟨"f1", "u1:f1", [⟨"u1", "f1", { emptyRecord with createdAt := some 7 }⟩]⟩ := by
  constructor
  · have h := ((c8_begin_connection [] "u1" "f1" 7).1 (by decide)).1
    rw [h]
    decide
  · have h := (c8_begin_connection [⟨"u1", "f1", { emptyRecord with createdAt := some 7 }⟩]
      "u1" "f2" 8).2 ⟨"u1", "f1", { emptyRecord with createdAt := some 7 }⟩ (by decide)
    rw [h]
    decide

/-- C2: divergence at the failing input.  The exchange returns no refresh
token while the stored record holds `refresh_token = "r0"`.
`handle_callback` returns the `noRefreshToken` error without writing —
its own stored-token fallback on the following line is unreachable — while
`save_refresh_token` on the same input succeeds using the stored token,
as the claim (and the spec) require. -/
theorem c2_stored_fallback_dead :
    handle_callback c2store "u1:a1" "c" pvNoRefresh = ((none, some .noRefreshToken), c2store)
    ∧ save_refresh_token c2store "c" "u1:a1" pvNoRefresh =
        .ok (.success, [⟨"u1", "a1",
          { createdAt := none, refresh_token := some "r0", access_token := some "t1",
            expiry := some "2024-01-02T03:04:05", emailAddress := some "x@y.com",
            name := some "x" }⟩]) := by
  decide

theorem store_get_setMerge_field (st : Store) (mo ma o a : String)
    (f : Record → Record) (g : Record → Option Nat) (hf : ∀ q, g (f q) = g q)
    (r : Record) (h : st.get o a = some r) :
    ∃ r', (st.setMerge mo ma f).get o a = some r' ∧ g r' = g r := by
  rw [store_get_setMerge]
  cases hc : (mo == o && ma == a) with
  | true =>
    have ho : mo = o := by simp_all
    have ha : ma = a := by simp_all
    subst ho ha
    rw [h]
    exact ⟨f r, rfl, hf r⟩
  | false => exact ⟨r, h, rfl⟩

theorem store_get_update_field (st : Store) (mo ma o a : String)
    (f : Record → Record) (g : Record → Option Nat) (hf : ∀ q, g (f q) = g q)
    (r : Record) (h : st.get o a = some r) :
    ∃ r', (st.update mo ma f).get o a = some r' ∧ g r' = g r := by
  rw [store_get_update]
  rw [h]
  cases hc : (mo == o && ma == a) with
  | true => exact ⟨f r, rfl, hf r⟩
  | false => exact ⟨r, rfl, rfl⟩

theorem handle_callback_store_shape (st : Store) (state code : String) (pv : Provider) :
    (handle_callback st state code pv).2 = st ∨
    ∃ u acid fn, (handle_callback st state code pv).2 = st.setMerge u acid fn
      ∧ ∀ q : Record, (fn q).createdAt = q.createdAt := by
  unfold handle_callback
  cases splitStateOnce state with
  | none => left; rfl
  | some p =>
    obtain ⟨u, acid⟩ := p
    cases pv.fetchToken state code with
    | error e => left; rfl
    | ok creds =>
      cases h1 : pyFalsy creds.refresh_token with
      | true => left; simp [h1]
      | false =>
        cases h2 : pyFalsy (pyOr creds.refresh_token
            ((st.get u acid).getD emptyRecord).refresh_token) with
        | true => left; simp [h1, h2]
        | false =>
          cases pv.profile with
          | error e => left; simp [h1, h2]
          | ok email =>
            right
            refine ⟨u, acid,
              (fun r => { r with
                refresh_token := pyOr creds.refresh_token
                  ((st.get u acid).getD emptyRecord).refresh_token
                access_token := creds.token
                expiry := some (pyStrOptDatetime creds.expiry)
                emailAddress := email
                name := some (emailName email) }), ?_, fun q => rfl⟩
            simp [h1, h2]

theorem credentialFromDoc_store_shape (st : Store) (owner account : String) (pv : Provider) :
    (credentialFromDoc st owner account pv).store = st ∨
    ∃ fn, (credentialFromDoc st owner account pv).store = st.update owner account fn
      ∧ ∀ q : Record, (fn q).createdAt = q.createdAt := by
  cases h1 : ((st.get owner account).getD emptyRecord).refresh_token with
  | none => left; simp [credentialFromDoc, h1]
  | some rt =>
    cases h2 : ((st.get owner account).getD emptyRecord).access_token with
    | some t => left; simp [credentialFromDoc, h1, h2]
    | none =>
      cases h3 : pv.refreshOutcome with
      | error m => left; simp [credentialFromDoc, h1, h2, h3]
      | ok p =>
        obtain ⟨t, exp⟩ := p
        right
        refine ⟨(fun q => { q with
            access_token := some t, expiry := exp.map PyDatetime.isoformat }), ?_, fun q => rfl⟩
        simp [credentialFromDoc, h1, h2, h3]

theorem get_credentials_store_shape (st : Store) (uid : String) (accountId? : Option String)
    (pv : Provider) :
    (get_credentials st uid accountId? pv).store = st ∨
    ∃ mo ma fn, (get_credentials st uid accountId? pv).store = st.update mo ma fn
      ∧ ∀ q : Record, (fn q).createdAt = q.createdAt := by
  cases accountId? with
  | some a =>
    cases hd : docRefForAccount st uid a with
    | none => left; simp [get_credentials, hd]
    | some p =>
      obtain ⟨owner, account⟩ := p
      have hred : get_credentials st uid (some a) pv = credentialFromDoc st owner account pv := by
        simp [get_credentials, hd]
      rw [hred]
      rcases credentialFromDoc_store_shape st owner account pv with h | ⟨fn, h, hfn⟩
      · left; exact h
      · right; exact ⟨owner, account, fn, h, hfn⟩
  | none =>
    cases huid : (uid == "") with
    | true => left; simp [get_credentials, huid]
    | false =>
      cases hfind : st.find? (fun e => e.owner == uid) with
      | none => left; simp [get_credentials, huid, hfind]
      | some e =>
        have hred : get_credentials st uid none pv = credentialFromDoc st e.owner e.account pv := by
          simp [get_credentials, huid, hfind]
        rw [hred]
        rcases credentialFromDoc_store_shape st e.owner e.account pv with h | ⟨fn, h, hfn⟩
        · left; exact h
        · right; exact ⟨e.owner, e.account, fn, h, hfn⟩

/-- C6 counterexample: the stored record's `createdAt` is 5, yet
`get_auth_url` with an explicit account id (a beginConnection of the
claim) merge-writes `createdAt := SERVER_TIMESTAMP` (here 99), so the
already-set `createdAt` changes — the claim says it is left unchanged. -/
theorem c6_counterexample :
    (c6store.get "u6" "a6").map Record.createdAt = some (some 5)
    ∧ ((get_auth_url c6store "u6" (some "a6") "fresh" 99).store.get "u6" "a6").map
        Record.createdAt = some (some 99) := by
  decide

/-- C6 (amended): `handle_callback` (a second completion included) and the
refresh persist inside `get_credentials` leave an already-set `createdAt`
unchanged, but `get_auth_url` with an explicit account id overwrites
`createdAt` with the fresh server timestamp, because `_ensure_account_doc`
includes `createdAt` in its merge-write field set. -/
theorem c6_created_at (st : Store) (state code uid freshId : String)
    (now : Nat) (pv : Provider) (accountId? : Option String)
    (o a : String) (r : Record) (c : Nat)
    (hget : st.get o a = some r) (hc : r.createdAt = some c) :
    (∃ r', (handle_callback st state code pv).2.get o a = some r' ∧ r'.createdAt = some c)
    ∧ (∃ r', (get_credentials st uid accountId? pv).store.get o a = some r'
        ∧ r'.createdAt = some c)
    ∧ (get_auth_url st o (some a) freshId now).store.get o a =
        some { r with createdAt := some now } := by
  refine ⟨?_, ?_, ?_⟩
  · rcases handle_callback_store_shape st state code pv with h | ⟨u, acid, fn, h, hfn⟩
    · exact ⟨r, by rw [h]; exact hget, hc⟩
    · rw [h]
      obtain ⟨r', h', heq⟩ := store_get_setMerge_field st u acid o a fn Record.createdAt hfn r hget
      exact ⟨r', h', heq.trans hc⟩
  · rcases get_credentials_store_shape st uid accountId? pv with h | ⟨mo, ma, fn, h, hfn⟩
    · exact ⟨r, by rw [h]; exact hget, hc⟩
    · rw [h]
      obtain ⟨r', h', heq⟩ := store_get_update_field st mo ma o a fn Record.createdAt hfn r hget
      exact ⟨r', h', heq.trans hc⟩
  · show (ensureAccountDoc st o a now).get o a = _
    unfold ensureAccountDoc
    rw [store_get_setMerge]
    simp [hget]

theorem c6_created_at_witness :
    (∃ r', (handle_callback c6store "u6:a6" "c" pvOk).2.get "u6" "a6" = some r'
      ∧ r'.createdAt = some 5)
    ∧ (∃ r', (get_credentials c6store "u6" (some "a6") pvOk).store.get "u6" "a6" = some r'
      ∧ r'.createdAt = some 5)
    ∧ (get_auth_url c6store "u6" (some "a6") "f" 99).store.get "u6" "a6" =
        some { emptyRecord with createdAt := some 99, refresh_token := some "r6" } := by
  exact c6_created_at c6store "u6:a6" "c" "u6" "f" 99 pvOk (some "a6") "u6" "a6"
    { emptyRecord with createdAt := some 5, refresh_token := some "r6" } 5
    (by decide) (by decide)

/-- C7 counterexample: the state `"u1:a1:x"` does not consist of exactly
one delimiter-separated pair, so the claim requires a `MalformedState`
failure with no exchange and no write; `handle_callback` instead accepts
it — splitting at the first colon only — completes the exchange and
writes a record under account id `"a1:x"`. -/
theorem c7_counterexample :
    handle_callback [] "u1:a1:x" "c" pvOk =
      ((some "a1:x", none),
       [⟨"u1", "a1:x",
         { createdAt := none, refresh_token := some "r1", access_token := some "t1",
           expiry := some "2024-01-01 00:00:00", emailAddress := some "x@y.com",
           name := some "x" }⟩]) := by
  decide

/-- C7 (amended): `handle_callback` fails with the malformed-state error
iff the state has NO delimiter (its split has a single part) — states with
extra delimiters are accepted, the excess folding into the account id —
while `save_refresh_token` raises its unpack `ValueError` iff the split
does not have exactly two parts.  In each rejection the outcome is the
same for every provider (so no exchange is consulted) and the store is
returned unchanged. -/
theorem c7_malformed_state (st : Store) (state code : String) (pv : Provider) :
    ((handle_callback st state code pv).1.2 = some CallbackError.invalidStateFormat
      ↔ (pySplit ':' state).length = 1)
    ∧ (save_refresh_token st code state pv = .error .stateUnpack
      ↔ (pySplit ':' state).length ≠ 2)
    ∧ ((pySplit ':' state).length = 1 →
        ∀ pv' : Provider, handle_callback st state code pv' =
          ((none, some .invalidStateFormat), st))
    ∧ ((pySplit ':' state).length ≠ 2 →
        ∀ pv' : Provider, save_refresh_token st code state pv' = .error .stateUnpack) := by
  have hswap : ∀ pv' : Provider,
      ((handle_callback st state code pv').1.2 = some CallbackError.invalidStateFormat
        ↔ (pySplit ':' state).length = 1) := by
    intro pv'
    constructor
    · intro h
      by_contra hlen
      have hsome : ∃ u a, splitStateOnce state = some (u, a) := by
        cases hs : splitStateOnce state with
        | none => exact absurd ((splitStateOnce_eq_none_iff state).mp hs) hlen
        | some p =>
          obtain ⟨u, a⟩ := p
          exact ⟨u, a, rfl⟩
      obtain ⟨u, a, hs⟩ := hsome
      unfold handle_callback at h
      rw [hs] at h
      cases hft : pv'.fetchToken state code with
      | error e => rw [hft] at h; simp at h
      | ok creds =>
        rw [hft] at h
        cases h1 : pyFalsy creds.refresh_token with
        | true => simp [h1] at h
        | false =>
          cases h2 : pyFalsy (pyOr creds.refresh_token
              ((st.get u a).getD emptyRecord).refresh_token) with
          | true => simp [h1, h2] at h
          | false =>
            cases hpf : pv'.profile with
            | error e => simp [h1, h2, hpf] at h
            | ok em => simp [h1, h2, hpf] at h
    · intro hlen
      have hs : splitStateOnce state = none := (splitStateOnce_eq_none_iff state).mpr hlen
      simp [handle_callback, hs]
  have hsave : ∀ pv' : Provider,
      (save_refresh_token st code state pv' = .error .stateUnpack
        ↔ (pySplit ':' state).length ≠ 2) := by
    intro pv'
    cases hs : pySplit ':' state with
    | nil => exact absurd hs (pySplit_ne_nil ':' state)
    | cons x t =>
      cases t with
      | nil =>
        constructor
        · intro _
          simp [hs]
        · intro _
          simp [save_refresh_token, hs]
      | cons y t2 =>
        cases t2 with
        | nil =>
          constructor
          · intro h
            exfalso
            unfold save_refresh_token at h
            rw [hs] at h
            cases hft : pv'.fetchToken state code with
            | error e => rw [hft] at h; simp at h
            | ok creds =>
              rw [hft] at h
              cases h1 : pyFalsy (pyOr creds.refresh_token
                  ((st.get x y).getD emptyRecord).refresh_token) with
              | true => simp [h1] at h
              | false =>
                cases hpf : pv'.profile with
                | error e => simp [h1, hpf] at h
                | ok em => simp [h1, hpf] at h
          · intro hlen
            exfalso
            exact hlen (by simp [hs])
        | cons z t3 =>
          constructor
          · intro _
            simp [hs]
          · intro _
            simp [save_refresh_token, hs]
  refine ⟨hswap pv, hsave pv, ?_, ?_⟩
  · intro hlen pv'
    have hs : splitStateOnce state = none := (splitStateOnce_eq_none_iff state).mpr hlen
    simp [handle_callback, hs]
  · intro hlen pv'
    exact (hsave pv').mpr hlen

theorem c7_malformed_state_witness :
    handle_callback [] "u1a1" "c" pvOk = ((none, some .invalidStateFormat), [])
    ∧ save_refresh_token [] "c" "x:y:z" pvOk = .error .stateUnpack := by
  refine ⟨(c7_malformed_state [] "u1a1" "c" pvOk).2.2.1 (by decide) pvOk, ?_⟩
  exact (c7_malformed_state [] "x:y:z" "c" pvOk).2.2.2 (by decide) pvOk

/-- C10 counterexample: the two completion implementations are not
equivalent.  On the same input with a full exchange result both succeed
but persist different `expiry` strings (`isoformat()` with a `T` separator
for `save_refresh_token` vs `str()` with a space for `handle_callback`);
when the exchange omits the refresh token while the store holds one,
`save_refresh_token` succeeds and `handle_callback` fails; with a state
holding two delimiters, `save_refresh_token` raises and `handle_callback`
succeeds. -/
theorem c10_counterexample :
    (save_refresh_token [] "c" "u9:a9" pvOk =
        .ok (.success, [⟨"u9", "a9",
          { createdAt := none, refresh_token := some "r1", access_token := some "t1",
            expiry := some "2024-01-01T00:00:00", emailAddress := some "x@y.com",
            name := some "x" }⟩])
      ∧ handle_callback [] "u9:a9" "c" pvOk =
        ((some "a9", none), [⟨"u9", "a9",
          { createdAt := none, refresh_token := some "r1", access_token := some "t1",
            expiry := some "2024-01-01 00:00:00", emailAddress := some "x@y.com",
            name := some "x" }⟩])
      ∧ (handle_callback [] "u9:a9" "c" pvOk).2 ≠
          [⟨"u9", "a9",
            { createdAt := none, refresh_token := some "r1", access_token := some "t1",
              expiry := some "2024-01-01T00:00:00", emailAddress := some "x@y.com",
              name := some "x" }⟩])
    ∧ ((save_refresh_token [⟨"u9", "a8", { emptyRecord with refresh_token := some "r8" }⟩]
          "c" "u9:a8" pvNoRefresh).isOk
      ∧ (handle_callback [⟨"u9", "a8", { emptyRecord with refresh_token := some "r8" }⟩]
          "u9:a8" "c" pvNoRefresh).1.2 = some .noRefreshToken)
    ∧ (save_refresh_token [] "c" "u9:a9:z" pvOk = .error .stateUnpack
      ∧ (handle_callback [] "u9:a9:z" "c" pvOk).1.1 = some "a9:z") := by
  decide

/-- C10 (amended): restricted agreement.  When the state splits into
exactly one `(owner, account)` pair, the exchange succeeds with a
non-falsy refresh token, and the profile fetch succeeds, both
implementations succeed and persist the same `refresh_token`,
`access_token`, `emailAddress` and `name` into the same document by the
same merge-write — differing only in the persisted `expiry`
serialization (`isoformat` vs `str`). -/
theorem c10_restricted_equivalence (st : Store) (u a code : String) (pv : Provider)
    (creds : Creds) (email : Option String)
    (hsplit : pySplit ':' (u ++ ":" ++ a) = [u, a])
    (hex : pv.fetchToken (u ++ ":" ++ a) code = .ok creds)
    (hrt : pyFalsy creds.refresh_token = false)
    (hpf : pv.profile = .ok email) :
    handle_callback st (u ++ ":" ++ a) code pv =
      ((some a, none),
        st.setMerge u a (fun r =>
          { r with
            refresh_token := creds.refresh_token
            access_token := creds.token
            expiry := some (pyStrOptDatetime creds.expiry)
            emailAddress := email
            name := some (emailName email) }))
    ∧ save_refresh_token st code (u ++ ":" ++ a) pv =
      .ok (.success,
        st.setMerge u a (fun r =>
          { r with
            refresh_token := creds.refresh_token
            access_token := creds.token
            expiry := creds.expiry.map PyDatetime.isoformat
            emailAddress := email
            name := some (emailName email) })) := by
  have hs : splitStateOnce (u ++ ":" ++ a) = some (u, a) :=
    splitStateOnce_pair (u ++ ":" ++ a) u a hsplit
  have hor : pyOr creds.refresh_token ((st.get u a).getD emptyRecord).refresh_token =
      creds.refresh_token := by
    simp [pyOr, hrt]
  constructor
  · simp [handle_callback, hs, hex, hrt, hor, hpf]
  · simp [save_refresh_token, hsplit, hex, hrt, hor, hpf]

theorem c10_restricted_equivalence_witness :
    handle_callback [] ("u3" ++ ":" ++ "a3") "c" pvOk =
      ((some "a3", none),
        Store.setMerge [] "u3" "a3" (fun r =>
          { r with
            refresh_token := some "r1"
            access_token := some "t1"
            expiry := some "2024-01-01 00:00:00"
            emailAddress := some "x@y.com"
            name := some "x" }))
    ∧ save_refresh_token [] "c" ("u3" ++ ":" ++ "a3") pvOk =
      .ok (.success,
        Store.setMerge [] "u3" "a3" (fun r =>
          { r with
            refresh_token := some "r1"
            access_token := some "t1"
            expiry := some "2024-01-01T00:00:00"
            emailAddress := some "x@y.com"
            name := some "x" })) := by
  exact c10_restricted_equivalence [] "u3" "a3" "c" pvOk
    ⟨some "t1", some "r1", some ⟨"2024-01-01", "00:00:00"⟩⟩ (some "x@y.com")
    (by decide) (by decide) (by decide) (by decide)
